import Mathlib

/-!
Verification of the solicitation lifecycle engine of the `connect-new`
municipal issue-tracking backend.

The definitions below are a shallow embedding of the Python source:

* `StatusSolicitacaoEnum` and its methods — `backend/app/utils/enums.py`
* `gerar_protocolo`, `verificar_duplicata`, `criar_solicitacao` —
  `backend/app/routes/solicitacoes.py`
* `atualizar_status_e_notificar` — `backend/app/services/solicitacao_service.py`
* `obter_historico` — the history query of
  `backend/app/routes/admin.py` (`obter_historico_admin`)

The SQLAlchemy store is modelled as an explicit record of lists
(`DBState`); SQL queries become list operations; `datetime.now()` becomes
a strictly increasing logical clock; Python `raise` becomes `Except.error`
or, for enum lookups, `Option.none`.
-/

namespace Connect

/-! ### Status enum (`backend/app/utils/enums.py`) -/

/-- The five lifecycle states of `StatusSolicitacaoEnum`. -/
inductive StatusSolicitacaoEnum where
  | PENDENTE
  | EM_ANALISE
  | EM_ANDAMENTO
  | RESOLVIDO
  | CANCELADO
deriving DecidableEq, Repr

/-- `.value` of the Python enum member: values are the strings themselves. -/
def StatusSolicitacaoEnum.value : StatusSolicitacaoEnum → String
  | .PENDENTE => "PENDENTE"
  | .EM_ANALISE => "EM_ANALISE"
  | .EM_ANDAMENTO => "EM_ANDAMENTO"
  | .RESOLVIDO => "RESOLVIDO"
  | .CANCELADO => "CANCELADO"

/-- The label lookup dictionary used by the `label` property. -/
def etiquetas : List (String × String) :=
  [("PENDENTE", "Pendente"),
   ("EM_ANALISE", "Em análise"),
   ("EM_ANDAMENTO", "Em andamento"),
   ("RESOLVIDO", "Resolvido"),
   ("CANCELADO", "Cancelado")]

/-- `label` property: `labels.get(self.value, "Desconhecido")`. -/
def StatusSolicitacaoEnum.label (s : StatusSolicitacaoEnum) : String :=
  (etiquetas.lookup s.value).getD "Desconhecido"

/-- `from_value`: Python `cls(value)` looks the member up by its string
value; a failed lookup raises `ValueError`, modelled as `none`. -/
def StatusSolicitacaoEnum.from_value (v : String) : Option StatusSolicitacaoEnum :=
  if v = "PENDENTE" then some .PENDENTE
  else if v = "EM_ANALISE" then some .EM_ANALISE
  else if v = "EM_ANDAMENTO" then some .EM_ANDAMENTO
  else if v = "RESOLVIDO" then some .RESOLVIDO
  else if v = "CANCELADO" then some .CANCELADO
  else none

/-- `get_all_values()`: the list of the five status strings. -/
def get_all_values : List String :=
  ["PENDENTE", "EM_ANALISE", "EM_ANDAMENTO", "RESOLVIDO", "CANCELADO"]

/-! ### Decimal strings

Helpers modelling Python's `str(n)` for a natural number and `str.zfill(5)`,
and the SQL `CAST(... AS Integer)` of a digit string, needed by
`gerar_protocolo`. `natDigitsAux` carries explicit fuel so that it is
structurally recursive; `natDigits n` always receives enough fuel. -/

/-- Big-endian decimal digit characters of `n`, accumulator style. -/
def natDigitsAux : Nat → Nat → List Char → List Char
  | 0, _, acc => acc
  | fuel + 1, n, acc =>
    let acc' := Char.ofNat (48 + n % 10) :: acc
    if n < 10 then acc' else natDigitsAux fuel (n / 10) acc'

/-- Big-endian decimal digits of `n` (Python `str(n)` character list). -/
def natDigits (n : Nat) : List Char := natDigitsAux (n + 1) n []

/-- Python `str(n)` for a natural number. -/
def natToString (n : Nat) : String := String.mk (natDigits n)

/-- Python `str.zfill(5)`: left-pad a digit list with `'0'` to width 5
(no-op when already at least 5 characters wide). -/
def zfill5 (l : List Char) : List Char :=
  List.replicate (5 - l.length) '0' ++ l

/-- Value of a big-endian digit-character list; models SQL
`CAST(s AS Integer)` on an all-digit string. -/
def digitsToNat (l : List Char) : Nat :=
  l.foldl (fun a c => 10 * a + (c.toNat - 48)) 0

/-! ### Protocol allocator (`gerar_protocolo`, `backend/app/routes/solicitacoes.py`)

The store is projected to the list of existing `protocolo` column values.
The calendar year (`datetime.now().year` in the source) is an explicit
argument. The SQL query
`max(cast(substring(protocolo, 6, 5) as Integer))` over rows with
`protocolo LIKE "{ano}-%"` becomes a filter + map + fold; SQL `MAX` of an
empty set is `NULL`, which the source's `if max_resultado else 0` turns
into `0`, so folding `Nat.max` from `0` is exact. -/

/-- The `f"{ano}-"` pattern of the `LIKE` filter. -/
def prefixoAno (ano : Nat) : String := natToString ano ++ "-"

/-- SQL `cast(substring(p, 6, 5) as Integer)`: characters 6..10
(1-indexed) of the protocol, cast to an integer. -/
def extractSeq (p : String) : Nat :=
  digitsToNat ((p.data.drop 5).take 5)

/-- `gerar_protocolo(db)`: year plus the successor of the maximum existing
sequence number of that year, zero-filled to 5 digits. -/
def gerar_protocolo (ano : Nat) (db : List String) : String :=
  let seqs := (db.filter fun p => (prefixoAno ano).data.isPrefixOf p.data).map extractSeq
  let numero_maximo := seqs.foldr Nat.max 0
  prefixoAno ano ++ String.mk (zfill5 (natDigits (numero_maximo + 1)))

/-- The true sequence number of a protocol string: its full digit suffix
after the `YYYY-` prefix (what the claims call "the sequence number"). -/
def seqDoProtocolo (p : String) : Nat := digitsToNat (p.data.drop 5)

/-- Maximum true sequence number among the protocols of year `ano`. -/
def maxSeqAno (ano : Nat) (db : List String) : Nat :=
  ((db.filter fun p => (prefixoAno ano).data.isPrefixOf p.data).map seqDoProtocolo).foldr Nat.max 0

/-! ### Data model (`backend/app/models/`)

Rows of the `solicitacoes`, `atualizacoes_solicitacao` and `notificacoes`
tables. `criado_em` timestamps are a strictly increasing logical clock
(`datetime.now()` idealised); autoincrement ids are modelled as
`length + 1`. Coordinates are real numbers (the source stores floats). -/

structure Solicitacao where
  id : Nat
  usuario_id : Nat
  categoria_id : Nat
  status : String
  protocolo : String
  descricao : String
  endereco : String
  latitude : ℝ
  longitude : ℝ
  contador_apoios : Nat

structure AtualizacaoSolicitacao where
  solicitacao_id : Nat
  administrador_id : Option Nat
  status_anterior : String
  status_novo : String
  descricao : String
  criado_em : Nat

structure Notificacao where
  id : Nat
  usuario_id : Nat
  solicitacao_id : Nat
  titulo : String
  conteudo : String
  lida : Bool
  criado_em : Nat

/-- The relevant database tables plus the logical clock. `categorias`
holds the existing category ids. -/
structure DBState where
  solicitacoes : List Solicitacao
  atualizacoes : List AtualizacaoSolicitacao
  notificacoes : List Notificacao
  categorias : List Nat
  clock : Nat

/-- An HTTP error raised by a route (`HTTPException`). -/
structure HTTPError where
  status_code : Nat
  detail : String
deriving DecidableEq, Repr

/-! ### Duplicate detector (`verificar_duplicata`, `backend/app/routes/solicitacoes.py`)

The geometric computation uses ideal real numbers (the source computes on
floats); `atan2` is Python `math.atan2` restricted to the conventions used
by the code. -/

/-- `math.radians`. -/
noncomputable def radianos (graus : ℝ) : ℝ := graus * Real.pi / 180

open Classical in
/-- `math.atan2 y x`. -/
noncomputable def atan2 (y x : ℝ) : ℝ :=
  if 0 < x then Real.arctan (y / x)
  else if x < 0 ∧ 0 ≤ y then Real.arctan (y / x) + Real.pi
  else if x < 0 ∧ y < 0 then Real.arctan (y / x) - Real.pi
  else if x = 0 ∧ 0 < y then Real.pi / 2
  else if x = 0 ∧ y < 0 then -(Real.pi / 2)
  else 0

/-- The Haversine distance of the loop body of `verificar_duplicata`:
arguments 1 are the stored solicitation's coordinates, arguments 2 the
candidate's, in WGS84 degrees; Earth radius 6 371 000 m. -/
noncomputable def distanciaHaversine (lat1g lon1g lat2g lon2g : ℝ) : ℝ :=
  let lat1 := radianos lat1g
  let lon1 := radianos lon1g
  let lat2 := radianos lat2g
  let lon2 := radianos lon2g
  let dlat := lat2 - lat1
  let dlon := lon2 - lon1
  let a := Real.sin (dlat / 2) ^ 2 + Real.cos lat1 * Real.cos lat2 * Real.sin (dlon / 2) ^ 2
  let c := 2 * atan2 (Real.sqrt a) (Real.sqrt (1 - a))
  6371000 * c

open Classical in
/-- `verificar_duplicata`: query all solicitations of the category whose
status differs from `"RESOLVIDO"`, then return the first one whose
Haversine distance to the candidate is strictly below `raio_metros`. -/
noncomputable def verificar_duplicata (db : List Solicitacao) (latitude longitude : ℝ)
    (categoria_id : Nat) (raio_metros : ℝ := 50) : Option Solicitacao :=
  let solicitacoes := db.filter fun s => s.categoria_id == categoria_id && s.status != "RESOLVIDO"
  solicitacoes.find? fun s =>
    decide (distanciaHaversine s.latitude s.longitude latitude longitude < raio_metros)

/-! ### Creation (`criar_solicitacao`, `backend/app/routes/solicitacoes.py`)

The route body after token authentication (`user_id` is the authenticated
user, `ano` the current calendar year). A raised `HTTPException` returns
the store unchanged together with the error. -/

noncomputable def criar_solicitacao (db : DBState) (user_id : Nat) (ano : Nat)
    (categoria_id : Nat) (descricao : String) (latitude longitude : ℝ) (endereco : String) :
    DBState × Except HTTPError Solicitacao :=
  if categoria_id ∈ db.categorias then
    match verificar_duplicata db.solicitacoes latitude longitude categoria_id 50 with
    | some _ =>
      (db, .error ⟨409, "Já existe uma solicitação similar neste local. Considere apoiar a solicitação existente ao invés de criar uma nova."⟩)
    | none =>
      let nova : Solicitacao :=
        { id := db.solicitacoes.length + 1
          usuario_id := user_id
          categoria_id := categoria_id
          status := "PENDENTE"
          protocolo := gerar_protocolo ano (db.solicitacoes.map (·.protocolo))
          descricao := descricao
          endereco := endereco
          latitude := latitude
          longitude := longitude
          contador_apoios := 0 }
      ({ db with solicitacoes := db.solicitacoes ++ [nova] }, .ok nova)
  else (db, .error ⟨404, "Categoria não encontrada"⟩)

/-! ### Status update (`atualizar_status_e_notificar`, `backend/app/services/solicitacao_service.py`) -/

/-- `solicitacao_crud.obter_por_id`: first row with the given id. -/
def obter_por_id (db : DBState) (id : Nat) : Option Solicitacao :=
  db.solicitacoes.find? fun s => s.id == id

/-- `solicitacao_crud.atualizar(db, id, {"status": novo})`: the ORM
fetches the first row with the id and mutates its status. -/
def atualizarPrimeiro (id : Nat) (novo : String) : List Solicitacao → List Solicitacao
  | [] => []
  | s :: resto =>
    if s.id == id then { s with status := novo } :: resto
    else s :: atualizarPrimeiro id novo resto

/-- The dict returned by `atualizar_status_e_notificar` (flattened). -/
structure ResultadoAtualizacao where
  solicitacao_id : Nat
  status_novo : String
  status_novo_label : String
  notificacao_id : Nat
  notificacao_titulo : String
  notificacao_conteudo : String

/-- Label of the previous status with the `try/except` fallback of the
service: the raw string itself when it is not a valid enum value. -/
def labelAnterior (st : String) : String :=
  match StatusSolicitacaoEnum.from_value st with
  | some e => e.label
  | none => st

/-- The notification body built in steps 5 of the service: old/new labels
plus the admin's comment when it is non-empty (Python truthiness). -/
def conteudoNotificacao (anterior : String) (novo : StatusSolicitacaoEnum)
    (descricao_admin : String) : String :=
  "Status mudou de \"" ++ labelAnterior anterior ++ "\" para \"" ++ novo.label ++ "\"."
    ++ (if descricao_admin ≠ "" then "\n\nComentário do administrador:\n" ++ descricao_admin
        else "")

/-- `atualizar_status_e_notificar`: load the solicitation (`ValueError`
if absent), validate the requested status string against the enum
(`ValueError` if not a member — this is the whole validation), write the
status, create the notification, append the audit record. The two
timestamps taken during the call share the clock value; the clock then
advances. -/
def atualizar_status_e_notificar (db : DBState) (solicitacao_id : Nat)
    (novo_status : String) (descricao_admin : String) :
    Except String (DBState × ResultadoAtualizacao) :=
  match obter_por_id db solicitacao_id with
  | none => .error ("Solicitação " ++ natToString solicitacao_id ++ " não encontrada")
  | some solicitacao =>
    let status_anterior_string := solicitacao.status
    match StatusSolicitacaoEnum.from_value novo_status with
    | none => .error "Status inválido"
    | some novo_enum =>
      let novo_status_string := novo_enum.value
      let novo_status_label := novo_enum.label
      let solicitacao_atualizada := { solicitacao with status := novo_status_string }
      let titulo := "Sua solicitação foi atualizada"
      let conteudo := conteudoNotificacao status_anterior_string novo_enum descricao_admin
      let notificacao : Notificacao :=
        { id := db.notificacoes.length + 1
          usuario_id := solicitacao.usuario_id
          solicitacao_id := solicitacao_id
          titulo := titulo
          conteudo := conteudo
          lida := false
          criado_em := db.clock }
      let atualizacao : AtualizacaoSolicitacao :=
        { solicitacao_id := solicitacao_id
          administrador_id := none
          status_anterior := status_anterior_string
          status_novo := novo_status_string
          descricao := descricao_admin
          criado_em := db.clock }
      .ok ({ solicitacoes := atualizarPrimeiro solicitacao_id novo_status_string db.solicitacoes
             atualizacoes := db.atualizacoes ++ [atualizacao]
             notificacoes := db.notificacoes ++ [notificacao]
             categorias := db.categorias
             clock := db.clock + 1 },
           { solicitacao_id := solicitacao_atualizada.id
             status_novo := solicitacao_atualizada.status
             status_novo_label := novo_status_label
             notificacao_id := notificacao.id
             notificacao_titulo := notificacao.titulo
             notificacao_conteudo := notificacao.conteudo })

/-! ### History query (`obter_historico_admin`, `backend/app/routes/admin.py`)

`order_by(criado_em.desc())` is an insertion sort by descending
timestamp. -/

def inserirDesc (a : AtualizacaoSolicitacao) :
    List AtualizacaoSolicitacao → List AtualizacaoSolicitacao
  | [] => [a]
  | b :: resto =>
    if a.criado_em > b.criado_em then a :: b :: resto
    else b :: inserirDesc a resto

def ordenarPorCriadoEmDesc (l : List AtualizacaoSolicitacao) : List AtualizacaoSolicitacao :=
  l.foldr inserirDesc []

/-- The admin history query: all audit records of the solicitation,
most recent first. -/
def obter_historico (db : DBState) (solicitacao_id : Nat) : List AtualizacaoSolicitacao :=
  ordenarPorCriadoEmDesc (db.atualizacoes.filter fun a => a.solicitacao_id == solicitacao_id)

/-! ### Derived notions used by the statements -/

/-- The (fromStatus, toStatus) pair recorded by an audit record. -/
def parDeStatus (a : AtualizacaoSolicitacao) : String × String :=
  (a.status_anterior, a.status_novo)

/-- The from/to chain starting at `st` through the given statuses. -/
def cadeiaDe (st : String) : List String → List (String × String)
  | [] => []
  | r :: resto => (st, r) :: cadeiaDe r resto

/-- Run a batch of status updates on one solicitation, stopping at the
first error (each element is a requested status and an admin comment). -/
def aplicarLote (db : DBState) (id : Nat) : List (String × String) → Except String DBState
  | [] => .ok db
  | (st, d) :: resto =>
    match atualizar_status_e_notificar db id st d with
    | .error e => .error e
    | .ok (db', _) => aplicarLote db' id resto

/-- Status of the first row with the given id, if any. -/
def statusDe (db : DBState) (id : Nat) : Option String :=
  (obter_por_id db id).map (·.status)

/-! ### Concrete fixtures used by witnesses and counterexamples -/

def solCancelada : Solicitacao :=
  { id := 7, usuario_id := 5, categoria_id := 1, status := "CANCELADO",
    protocolo := "2025-00001", descricao := "d", endereco := "e",
    latitude := 0, longitude := 0, contador_apoios := 0 }

def solPendente : Solicitacao :=
  { solCancelada with id := 3, status := "PENDENTE", protocolo := "2025-00002" }

def dbDupA : DBState :=
  { solicitacoes := [solPendente], atualizacoes := [], notificacoes := [],
    categorias := [1], clock := 0 }

def dbDupB : DBState :=
  { dbDupA with solicitacoes := [{ solPendente with id := 8 }] }

def dbVazio : DBState :=
  { solicitacoes := [], atualizacoes := [], notificacoes := [],
    categorias := [1], clock := 0 }

def solNova : Solicitacao :=
  { id := 1, usuario_id := 5, categoria_id := 1, status := "PENDENTE",
    protocolo := "2025-00001", descricao := "d", endereco := "e",
    latitude := 0, longitude := 0, contador_apoios := 0 }

def dbAposCriacao : DBState := { dbVazio with solicitacoes := [solNova] }

def solResolvida : Solicitacao := { solCancelada with id := 1, status := "RESOLVIDO" }

def dbC1 : DBState :=
  { solicitacoes := [solResolvida], atualizacoes := [], notificacoes := [],
    categorias := [1], clock := 10 }

def solPendenteUm : Solicitacao := { solCancelada with id := 1, status := "PENDENTE" }

def dbC2 : DBState := { dbC1 with solicitacoes := [solPendenteUm] }

/-- The state after the one-step batch of the audit-chain witness. -/
def dbAposLote : DBState :=
  { solicitacoes := [{ solPendenteUm with status := "EM_ANALISE" }]
    atualizacoes := [⟨1, none, "PENDENTE", "EM_ANALISE", "", 10⟩]
    notificacoes := [⟨1, 5, 1, "Sua solicitação foi atualizada",
      "Status mudou de \"Pendente\" para \"Em análise\".", false, 10⟩]
    categorias := [1]
    clock := 11 }

/-! ## Lemmas about decimal strings -/

theorem natDigitsAux_canonical :
    ∀ n fuel acc, n ≤ fuel → natDigitsAux (fuel + 1) n acc = natDigits n ++ acc := by
  intro n
  induction n using Nat.strong_induction_on with
  | _ n ih =>
    intro fuel acc hn
    by_cases h : n < 10
    · simp [natDigitsAux, natDigits, h]
    · have h10 : 10 ≤ n := Nat.le_of_not_lt h
      have hdiv : n / 10 < n := Nat.div_lt_self (by omega) (by omega)
      obtain ⟨fuel', rfl⟩ : ∃ f, fuel = f + 1 := ⟨fuel - 1, by omega⟩
      have hstep : natDigitsAux (fuel' + 1 + 1) n acc
          = natDigitsAux (fuel' + 1) (n / 10) (Char.ofNat (48 + n % 10) :: acc) := by
        simp [natDigitsAux, h]
      have hself : natDigits n = natDigits (n / 10) ++ [Char.ofNat (48 + n % 10)] := by
        obtain ⟨n', hn'⟩ : ∃ m, n = m + 1 := ⟨n - 1, by omega⟩
        have : natDigits n = natDigitsAux (n' + 1) (n / 10) [Char.ofNat (48 + n % 10)] := by
          rw [natDigits, hn']
          simp [natDigitsAux, h, hn'.symm]
        rw [this, ih (n / 10) hdiv n' [Char.ofNat (48 + n % 10)] (by omega)]
      rw [hstep, ih (n / 10) hdiv fuel' _ (by omega), hself, List.append_assoc]
      rfl

theorem natDigits_ge10 (n : Nat) (h : 10 ≤ n) :
    natDigits n = natDigits (n / 10) ++ [Char.ofNat (48 + n % 10)] := by
  have hdiv : n / 10 < n := Nat.div_lt_self (by omega) (by omega)
  obtain ⟨n', hn'⟩ : ∃ m, n = m + 1 := ⟨n - 1, by omega⟩
  have : natDigits n = natDigitsAux (n' + 1) (n / 10) [Char.ofNat (48 + n % 10)] := by
    rw [natDigits, hn']
    simp [natDigitsAux, Nat.not_lt.mpr h, hn'.symm]
  rw [this, natDigitsAux_canonical (n / 10) n' _ (by omega)]

theorem natDigits_lt10 (n : Nat) (h : n < 10) : natDigits n = [Char.ofNat (48 + n)] := by
  simp [natDigits, natDigitsAux, h, Nat.mod_eq_of_lt h]

theorem toNat_digitChar (d : Nat) (h : d < 10) : (Char.ofNat (48 + d)).toNat - 48 = d := by
  interval_cases d <;> decide

theorem digitsToNat_append_singleton (l : List Char) (c : Char) :
    digitsToNat (l ++ [c]) = 10 * digitsToNat l + (c.toNat - 48) := by
  simp [digitsToNat, List.foldl_append]

theorem digitsToNat_natDigits (n : Nat) : digitsToNat (natDigits n) = n := by
  induction n using Nat.strong_induction_on with
  | _ n ih =>
    by_cases h : n < 10
    · rw [natDigits_lt10 n h]
      simp [digitsToNat]
      exact toNat_digitChar n h
    · have h10 : 10 ≤ n := Nat.le_of_not_lt h
      have hdiv : n / 10 < n := Nat.div_lt_self (by omega) (by omega)
      rw [natDigits_ge10 n h10, digitsToNat_append_singleton, ih (n / 10) hdiv,
        toNat_digitChar (n % 10) (Nat.mod_lt n (by omega))]
      omega

theorem digitsToNat_replicate_zero (k : Nat) (l : List Char) :
    digitsToNat (List.replicate k '0' ++ l) = digitsToNat l := by
  induction k with
  | zero => simp
  | succ k ih =>
    have : List.replicate (k + 1) '0' ++ l = '0' :: (List.replicate k '0' ++ l) := by
      simp [List.replicate_succ]
    rw [this]
    simpa [digitsToNat] using ih

theorem digitsToNat_zfill5 (l : List Char) :
    digitsToNat (zfill5 l) = digitsToNat l := by
  rw [zfill5, digitsToNat_replicate_zero]

theorem natDigits_ne_nil (n : Nat) : natDigits n ≠ [] := by
  by_cases h : n < 10
  · rw [natDigits_lt10 n h]; simp
  · rw [natDigits_ge10 n (Nat.le_of_not_lt h)]; simp

theorem natDigits_length_le : ∀ k n, 1 ≤ k → n < 10 ^ k → (natDigits n).length ≤ k := by
  intro k
  induction k with
  | zero => omega
  | succ k ih =>
    intro n _ hn
    by_cases h : n < 10
    · rw [natDigits_lt10 n h]; simp
    · have h10 : 10 ≤ n := Nat.le_of_not_lt h
      have hk : 1 ≤ k := by
        by_contra hk0
        have : k = 0 := by omega
        subst this
        simp [pow_succ] at hn
        omega
      have hdivlt : n / 10 < 10 ^ k := by
        rw [Nat.div_lt_iff_lt_mul (by omega)]
        calc n < 10 ^ (k + 1) := hn
        _ = 10 ^ k * 10 := by rw [pow_succ]
      rw [natDigits_ge10 n h10]
      simp only [List.length_append, List.length_singleton]
      have := ih (n / 10) hk hdivlt
      omega

theorem natDigits_length_ge : ∀ k n, 10 ^ k ≤ n → k + 1 ≤ (natDigits n).length := by
  intro k
  induction k with
  | zero =>
    intro n _
    have := natDigits_ne_nil n
    cases hl : natDigits n with
    | nil => exact absurd hl this
    | cons a t => simp
  | succ k ih =>
    intro n hn
    have h10 : 10 ≤ n := by
      have hp : (10 : Nat) ≤ 10 ^ (k + 1) := by
        calc (10 : Nat) = 10 ^ 1 := (pow_one 10).symm
        _ ≤ 10 ^ (k + 1) := Nat.pow_le_pow_right (by omega) (by omega)
      omega
    have hdivge : 10 ^ k ≤ n / 10 := by
      rw [Nat.le_div_iff_mul_le (by omega)]
      calc 10 ^ k * 10 = 10 ^ (k + 1) := by rw [pow_succ]
      _ ≤ n := hn
    rw [natDigits_ge10 n h10]
    simp only [List.length_append, List.length_singleton]
    have := ih (n / 10) hdivge
    omega

theorem natDigits_length_four (ano : Nat) (h1 : 1000 ≤ ano) (h2 : ano < 10000) :
    (natDigits ano).length = 4 := by
  have hle := natDigits_length_le 4 ano (by omega) (by norm_num; omega)
  have hge := natDigits_length_ge 3 ano (by norm_num; omega)
  omega

theorem natDigits_all_digit (n : Nat) : (natDigits n).all Char.isDigit = true := by
  induction n using Nat.strong_induction_on with
  | _ n ih =>
    by_cases h : n < 10
    · rw [natDigits_lt10 n h]
      interval_cases n <;> decide
    · have h10 : 10 ≤ n := Nat.le_of_not_lt h
      have hdiv : n / 10 < n := Nat.div_lt_self (by omega) (by omega)
      rw [natDigits_ge10 n h10]
      simp only [List.all_append, Bool.and_eq_true]
      refine ⟨ih (n / 10) hdiv, ?_⟩
      have hm : n % 10 < 10 := Nat.mod_lt n (by omega)
      simp only [List.all_cons, List.all_nil, Bool.and_true]
      interval_cases hmod : (n % 10) <;> decide

theorem zfill5_length_of_le (l : List Char) (h : l.length ≤ 5) : (zfill5 l).length = 5 := by
  simp [zfill5]
  omega

theorem zfill5_of_ge (l : List Char) (h : 5 ≤ l.length) : zfill5 l = l := by
  have : 5 - l.length = 0 := by omega
  simp [zfill5, this]

theorem zfill5_all_digit (l : List Char) (h : l.all Char.isDigit = true) :
    (zfill5 l).all Char.isDigit = true := by
  simp only [zfill5, List.all_append, Bool.and_eq_true]
  refine ⟨?_, h⟩
  simp only [List.all_eq_true]
  intro c hc
  have := List.eq_of_mem_replicate hc
  subst this
  decide

/-! ## Lemmas about the protocol allocator -/

theorem prefixoAno_data_length (ano : Nat) (h1 : 1000 ≤ ano) (h2 : ano < 10000) :
    (prefixoAno ano).data.length = 5 := by
  show (natToString ano ++ "-").data.length = 5
  rw [String.data_append]
  simp [natToString, natDigits_length_four ano h1 h2]

theorem drop5_forma (ano : Nat) (h1 : 1000 ≤ ano) (h2 : ano < 10000) (l : List Char) :
    (prefixoAno ano ++ String.mk l).data.drop 5 = l := by
  have hd : (prefixoAno ano ++ String.mk l).data = (prefixoAno ano).data ++ l := by
    rw [String.data_append]
  rw [hd, ← prefixoAno_data_length ano h1 h2, List.drop_left]

theorem seqDoProtocolo_forma (ano : Nat) (h1 : 1000 ≤ ano) (h2 : ano < 10000) (l : List Char) :
    seqDoProtocolo (prefixoAno ano ++ String.mk l) = digitsToNat l := by
  rw [seqDoProtocolo, drop5_forma ano h1 h2]

theorem prefixo_isPrefixOf_append (ano : Nat) (s : String) :
    (prefixoAno ano).data.isPrefixOf (prefixoAno ano ++ s).data = true := by
  rw [List.isPrefixOf_iff_prefix, String.data_append]
  exact List.prefix_append _ _

theorem extractSeq_eq_seqDoProtocolo (p : String) (h : (p.data.drop 5).length ≤ 5) :
    extractSeq p = seqDoProtocolo p := by
  rw [extractSeq, seqDoProtocolo, List.take_of_length_le h]

theorem gerar_protocolo_closed (ano : Nat) (db : List String)
    (hlen : ∀ p ∈ db, (prefixoAno ano).data.isPrefixOf p.data = true →
      (p.data.drop 5).length ≤ 5) :
    gerar_protocolo ano db
      = prefixoAno ano ++ String.mk (zfill5 (natDigits (maxSeqAno ano db + 1))) := by
  have hmap : (db.filter fun p => (prefixoAno ano).data.isPrefixOf p.data).map extractSeq
      = (db.filter fun p => (prefixoAno ano).data.isPrefixOf p.data).map seqDoProtocolo := by
    apply List.map_congr_left
    intro p hp
    rw [List.mem_filter] at hp
    exact extractSeq_eq_seqDoProtocolo p (hlen p hp.1 hp.2)
  simp only [gerar_protocolo, maxSeqAno, hmap]

theorem maxSeqAno_cons_pos (ano : Nat) (p : String) (db : List String)
    (h : (prefixoAno ano).data.isPrefixOf p.data = true) :
    maxSeqAno ano (p :: db) = Nat.max (seqDoProtocolo p) (maxSeqAno ano db) := by
  simp [maxSeqAno, List.filter_cons, h]

/-! ## Claim theorems: protocol allocator (C4, C5) -/

/-- C4 (amended): provided every protocol of year `ano` in the store has a
digit suffix of at most 5 characters and the maximum existing sequence
number `M` for the year is at most 99998, `gerar_protocolo` returns
`ano-(M+1)` zero-filled to 5 digits (sequence 1 when no protocol of the
year exists), and two back-to-back allocations — inserting the first
result before the second call — return strictly increasing, non-colliding
protocols. -/
theorem gerar_protocolo_max_mais_um (ano : Nat) (db : List String)
    (hano1 : 1000 ≤ ano) (hano2 : ano < 10000)
    (hwf : ∀ p ∈ db, (prefixoAno ano).data.isPrefixOf p.data = true →
      (p.data.drop 5).all Char.isDigit = true ∧ (p.data.drop 5).length ≤ 5)
    (hmax : maxSeqAno ano db ≤ 99998) :
    gerar_protocolo ano db
      = prefixoAno ano ++ String.mk (zfill5 (natDigits (maxSeqAno ano db + 1)))
    ∧ ((db.filter fun p => (prefixoAno ano).data.isPrefixOf p.data) = [] →
        gerar_protocolo ano db = prefixoAno ano ++ "00001")
    ∧ seqDoProtocolo (gerar_protocolo ano db) = maxSeqAno ano db + 1
    ∧ seqDoProtocolo (gerar_protocolo ano (gerar_protocolo ano db :: db))
        = maxSeqAno ano db + 2
    ∧ gerar_protocolo ano db ≠ gerar_protocolo ano (gerar_protocolo ano db :: db) := by
  have hlen : ∀ p ∈ db, (prefixoAno ano).data.isPrefixOf p.data = true →
      (p.data.drop 5).length ≤ 5 := fun p hp h => (hwf p hp h).2
  have h1 := gerar_protocolo_closed ano db hlen
  have hseq1 : seqDoProtocolo (gerar_protocolo ano db) = maxSeqAno ano db + 1 := by
    rw [h1, seqDoProtocolo_forma ano hano1 hano2, digitsToNat_zfill5, digitsToNat_natDigits]
  have hpre1 : (prefixoAno ano).data.isPrefixOf (gerar_protocolo ano db).data = true := by
    rw [h1]; exact prefixo_isPrefixOf_append ano _
  have hdrop1 : (gerar_protocolo ano db).data.drop 5
      = zfill5 (natDigits (maxSeqAno ano db + 1)) := by
    rw [h1, drop5_forma ano hano1 hano2]
  have hlen1 : ((gerar_protocolo ano db).data.drop 5).length ≤ 5 := by
    rw [hdrop1]
    have hd : (natDigits (maxSeqAno ano db + 1)).length ≤ 5 := by
      apply natDigits_length_le 5 _ (by omega)
      have hpow : (10 : Nat) ^ 5 = 100000 := by norm_num
      omega
    rw [zfill5_length_of_le _ hd]
  have hlen' : ∀ p ∈ gerar_protocolo ano db :: db,
      (prefixoAno ano).data.isPrefixOf p.data = true → (p.data.drop 5).length ≤ 5 := by
    intro p hp hpre
    rcases List.mem_cons.mp hp with h | h
    · subst h; exact hlen1
    · exact hlen p h hpre
  have h2 := gerar_protocolo_closed ano (gerar_protocolo ano db :: db) hlen'
  have hmax2 : maxSeqAno ano (gerar_protocolo ano db :: db) = maxSeqAno ano db + 1 := by
    rw [maxSeqAno_cons_pos ano _ db hpre1, hseq1]
    exact Nat.max_eq_left (Nat.le_succ _)
  have hseq2 : seqDoProtocolo (gerar_protocolo ano (gerar_protocolo ano db :: db))
      = maxSeqAno ano db + 2 := by
    rw [h2, hmax2, seqDoProtocolo_forma ano hano1 hano2, digitsToNat_zfill5,
      digitsToNat_natDigits]
  refine ⟨h1, ?_, hseq1, hseq2, ?_⟩
  · intro hfil
    have hm0 : maxSeqAno ano db = 0 := by
      rw [maxSeqAno, hfil]
      rfl
    rw [h1, hm0]
    congr 1
  · intro heq
    rw [heq, hseq2] at hseq1
    omega

/-- C4 witness: a concrete store with maximum sequence 7 for 2025. -/
theorem gerar_protocolo_max_mais_um_witness :
    gerar_protocolo 2025 ["2025-00007"]
      = prefixoAno 2025 ++ String.mk (zfill5 (natDigits (maxSeqAno 2025 ["2025-00007"] + 1)))
    ∧ seqDoProtocolo (gerar_protocolo 2025 ["2025-00007"])
        = maxSeqAno 2025 ["2025-00007"] + 1 := by
  obtain ⟨h1, _, h3, _, _⟩ := gerar_protocolo_max_mais_um 2025 ["2025-00007"]
    (by decide) (by decide) (by decide) (by decide)
  exact ⟨h1, h3⟩

/-- C4 counterexample: with existing protocol `2025-99999`, two
back-to-back allocations both return `2025-100000` — a collision, because
`substring(protocolo, 6, 5)` reads back only the first five digits of the
six-digit suffix. -/
theorem gerar_protocolo_colisao_cex :
    gerar_protocolo 2025 ["2025-99999"] = "2025-100000"
    ∧ gerar_protocolo 2025 (gerar_protocolo 2025 ["2025-99999"] :: ["2025-99999"])
        = gerar_protocolo 2025 ["2025-99999"] := by
  constructor <;> decide

/-- C5 (amended): when the maximum existing sequence number `M` of the
year is 99999 or more, the allocation does not fail: it returns
`ano-(M+1)` with the sequence printed in full, wider than 5 digits
(`zfill` pads but never truncates). -/
theorem gerar_protocolo_estouro (ano : Nat) (db : List String)
    (hano1 : 1000 ≤ ano) (hano2 : ano < 10000)
    (hwf : ∀ p ∈ db, (prefixoAno ano).data.isPrefixOf p.data = true →
      (p.data.drop 5).length ≤ 5)
    (hmax : 99999 ≤ maxSeqAno ano db) :
    gerar_protocolo ano db = prefixoAno ano ++ natToString (maxSeqAno ano db + 1)
    ∧ 6 ≤ ((gerar_protocolo ano db).data.drop 5).length := by
  have h1 := gerar_protocolo_closed ano db hwf
  have hlong : 6 ≤ (natDigits (maxSeqAno ano db + 1)).length := by
    have hge := natDigits_length_ge 5 (maxSeqAno ano db + 1) (by
      have hpow : (10 : Nat) ^ 5 = 100000 := by norm_num
      omega)
    omega
  have hz : zfill5 (natDigits (maxSeqAno ano db + 1)) = natDigits (maxSeqAno ano db + 1) :=
    zfill5_of_ge _ (by omega)
  constructor
  · rw [h1, hz]
    rfl
  · rw [h1, drop5_forma ano hano1 hano2, hz]
    exact hlong

/-- C5 witness: a store whose 2025 sequence space is exhausted. -/
theorem gerar_protocolo_estouro_witness :
    gerar_protocolo 2025 ["2025-99999"]
      = prefixoAno 2025 ++ natToString (maxSeqAno 2025 ["2025-99999"] + 1) :=
  (gerar_protocolo_estouro 2025 ["2025-99999"] (by decide) (by decide)
    (by decide) (by decide)).1

/-- C5 counterexample: at maximum sequence 99999 the allocator returns the
protocol `2025-100000` — a six-digit sequence — instead of failing with an
`AllocatorExhausted` error (the source has no failure path at all). -/
theorem gerar_protocolo_estouro_cex :
    gerar_protocolo 2025 ["2025-99999"] = "2025-100000"
    ∧ 6 ≤ (("2025-100000" : String).data.drop 5).length := by
  constructor <;> decide

/-! ## Claim theorem: status enum (C10) -/

/-- C10: `from_value` is a left inverse of `value` on all five members,
every member's label is one of the five Portuguese labels (never
"Desconhecido"), and `from_value` rejects (raises `ValueError`, modelled
as `none`) every string outside the five values. -/
theorem from_value_roundtrip :
    (∀ S : StatusSolicitacaoEnum, StatusSolicitacaoEnum.from_value S.value = some S)
    ∧ (∀ S : StatusSolicitacaoEnum,
        S.label ∈ ["Pendente", "Em análise", "Em andamento", "Resolvido", "Cancelado"]
        ∧ S.label ≠ "Desconhecido")
    ∧ (∀ v : String, v ∉ get_all_values → StatusSolicitacaoEnum.from_value v = none) := by
  refine ⟨?_, ?_, ?_⟩
  · intro S; cases S <;> rfl
  · intro S; cases S <;> exact ⟨by decide, by decide⟩
  · intro v hv
    simp only [get_all_values, List.mem_cons, List.not_mem_nil, or_false, not_or] at hv
    obtain ⟨h1, h2, h3, h4, h5⟩ := hv
    simp [StatusSolicitacaoEnum.from_value, h1, h2, h3, h4, h5]

/-- C10 witness: a string outside the five values is rejected. -/
theorem from_value_roundtrip_witness :
    "XYZ" ∉ get_all_values ∧ StatusSolicitacaoEnum.from_value "XYZ" = none :=
  ⟨by decide, from_value_roundtrip.2.2 "XYZ" (by decide)⟩

/-! ## Lemmas about the duplicate detector -/

theorem distanciaHaversine_self (lat lon : ℝ) : distanciaHaversine lat lon lat lon = 0 := by
  have ha : Real.sin ((radianos lat - radianos lat) / 2) = 0 := by
    rw [sub_self, zero_div, Real.sin_zero]
  have hb : Real.sin ((radianos lon - radianos lon) / 2) = 0 := by
    rw [sub_self, zero_div, Real.sin_zero]
  simp only [distanciaHaversine, ha, hb]
  have hz : (0 : ℝ) ^ 2 + Real.cos (radianos lat) * Real.cos (radianos lat) * (0 : ℝ) ^ 2
      = 0 := by ring
  rw [hz, Real.sqrt_zero, sub_zero, Real.sqrt_one, atan2]
  rw [if_pos (by norm_num : (0 : ℝ) < 1)]
  rw [zero_div, Real.arctan_zero, mul_zero, mul_zero]

theorem verificar_duplicata_none_iff (db : List Solicitacao) (lat lon : ℝ) (cat : Nat)
    (raio : ℝ) :
    verificar_duplicata db lat lon cat raio = none ↔
      ∀ s ∈ db, s.categoria_id = cat → s.status ≠ "RESOLVIDO" →
        ¬ distanciaHaversine s.latitude s.longitude lat lon < raio := by
  simp only [verificar_duplicata, List.find?_eq_none, List.mem_filter, Bool.and_eq_true,
    beq_iff_eq, bne_iff_ne, ne_eq, decide_eq_true_eq]
  constructor
  · intro h s hs hcat hst hd
    exact h s ⟨hs, hcat, hst⟩ hd
  · rintro h s ⟨hs, hcat, hst⟩ hd
    exact h s hs hcat hst hd

theorem verificar_duplicata_some_spec (db : List Solicitacao) (lat lon : ℝ) (cat : Nat)
    (raio : ℝ) (s : Solicitacao)
    (h : verificar_duplicata db lat lon cat raio = some s) :
    s ∈ db ∧ s.categoria_id = cat ∧ s.status ≠ "RESOLVIDO"
      ∧ distanciaHaversine s.latitude s.longitude lat lon < raio := by
  simp only [verificar_duplicata] at h
  have hmem := List.mem_of_find?_eq_some h
  have hp := List.find?_some h
  rw [List.mem_filter] at hmem
  simp only [Bool.and_eq_true, beq_iff_eq, bne_iff_ne, ne_eq] at hmem
  rw [decide_eq_true_eq] at hp
  exact ⟨hmem.1, hmem.2.1, hmem.2.2, hp⟩

theorem verificar_duplicata_singleton (s : Solicitacao) (lat lon : ℝ) (cat : Nat) (raio : ℝ)
    (hcat : s.categoria_id = cat) (hst : s.status ≠ "RESOLVIDO")
    (hdist : distanciaHaversine s.latitude s.longitude lat lon < raio) :
    verificar_duplicata [s] lat lon cat raio = some s := by
  have hb : (s.categoria_id == cat && s.status != "RESOLVIDO") = true := by
    simp [hcat, hst]
  simp only [verificar_duplicata, List.filter_cons, List.filter_nil, hb, if_true]
  exact List.find?_cons_of_pos _ (decide_eq_true hdist)

theorem verificar_duplicata_dbDupA :
    verificar_duplicata dbDupA.solicitacoes 0 0 1 50 = some solPendente := by
  refine verificar_duplicata_singleton _ _ _ _ _ rfl (by decide) ?_
  show distanciaHaversine 0 0 0 0 < 50
  rw [distanciaHaversine_self]
  norm_num

/-! ## Claim theorems: duplicate detector (C3, C9) -/

/-- C3 (amended): the duplicate detector considers exactly the reports
whose status is not RESOLVIDO (so a CANCELADO report within the radius
does block creation): a returned duplicate is an element of the store of
the queried category, not RESOLVIDO, strictly within the radius; and no
duplicate is reported iff no same-category non-RESOLVIDO report lies
strictly within the radius. -/
theorem verificar_duplicata_caracterizacao (db : List Solicitacao) (lat lon : ℝ) (cat : Nat)
    (raio : ℝ) :
    (∀ s, verificar_duplicata db lat lon cat raio = some s →
      s ∈ db ∧ s.categoria_id = cat ∧ s.status ≠ "RESOLVIDO"
        ∧ distanciaHaversine s.latitude s.longitude lat lon < raio)
    ∧ (verificar_duplicata db lat lon cat raio = none ↔
        ∀ s ∈ db, s.categoria_id = cat → s.status ≠ "RESOLVIDO" →
          ¬ distanciaHaversine s.latitude s.longitude lat lon < raio) :=
  ⟨fun s h => verificar_duplicata_some_spec db lat lon cat raio s h,
   verificar_duplicata_none_iff db lat lon cat raio⟩

/-- C3 witness: an empty store yields no duplicate. -/
theorem verificar_duplicata_caracterizacao_witness :
    verificar_duplicata [] 0 0 1 50 = none :=
  (verificar_duplicata_caracterizacao [] 0 0 1 50).2.mpr (by simp)

/-- C3 counterexample: a CANCELADO report of the queried category at the
very same point is reported as a duplicate — the source filters only
`status != "RESOLVIDO"`, so CANCELADO reports block creation. -/
theorem verificar_duplicata_cancelado_cex :
    verificar_duplicata [solCancelada] 0 0 1 50 = some solCancelada := by
  refine verificar_duplicata_singleton _ _ _ _ _ rfl (by decide) ?_
  show distanciaHaversine 0 0 0 0 < 50
  rw [distanciaHaversine_self]
  norm_num

/-- C9: the radius comparison is strict: if every same-category
non-RESOLVIDO report sits at Haversine distance exactly `raio`, no
duplicate is reported; and a reported duplicate is always strictly inside
the radius. -/
theorem verificar_duplicata_raio_estrito (db : List Solicitacao) (lat lon : ℝ) (cat : Nat)
    (raio : ℝ) :
    ((∀ s ∈ db, s.categoria_id = cat → s.status ≠ "RESOLVIDO" →
        distanciaHaversine s.latitude s.longitude lat lon = raio) →
      verificar_duplicata db lat lon cat raio = none)
    ∧ (∀ s, verificar_duplicata db lat lon cat raio = some s →
        distanciaHaversine s.latitude s.longitude lat lon < raio) := by
  constructor
  · intro h
    rw [verificar_duplicata_none_iff]
    intro s hs hcat hst
    rw [h s hs hcat hst]
    exact lt_irrefl raio
  · intro s hs
    exact (verificar_duplicata_some_spec db lat lon cat raio s hs).2.2.2

/-- C9 witness: a report at distance exactly 0 from the query point with
radius 0 is not reported as a duplicate. -/
theorem verificar_duplicata_raio_estrito_witness :
    verificar_duplicata [solPendente] 0 0 1 0 = none := by
  apply (verificar_duplicata_raio_estrito [solPendente] 0 0 1 0).1
  intro s hs _ _
  have hself : s = solPendente := by simpa using hs
  subst hself
  show distanciaHaversine 0 0 0 0 = 0
  exact distanciaHaversine_self 0 0

/-! ## Claim theorems: creation (C6, C7) -/

/-- C6 (amended): when the duplicate detector finds a match, creation
fails with the fixed 409 conflict error — whose payload does not carry
the existing solicitation's id — and the store is returned unchanged. -/
theorem criar_solicitacao_duplicata (db : DBState) (uid ano catid : Nat) (desc : String)
    (lat lon : ℝ) (ende : String) (s : Solicitacao)
    (hcat : catid ∈ db.categorias)
    (hdup : verificar_duplicata db.solicitacoes lat lon catid 50 = some s) :
    criar_solicitacao db uid ano catid desc lat lon ende
      = (db, Except.error ⟨409, "Já existe uma solicitação similar neste local. Considere apoiar a solicitação existente ao invés de criar uma nova."⟩) := by
  simp [criar_solicitacao, hcat, hdup]

/-- C6 witness: creation over a store holding a same-point same-category
report fails with the fixed 409 error and leaves the store unchanged. -/
theorem criar_solicitacao_duplicata_witness :
    criar_solicitacao dbDupA 5 2025 1 "d" 0 0 "e"
      = (dbDupA, Except.error ⟨409, "Já existe uma solicitação similar neste local. Considere apoiar a solicitação existente ao invés de criar uma nova."⟩) :=
  criar_solicitacao_duplicata dbDupA 5 2025 1 "d" 0 0 "e" solPendente (by decide)
    verificar_duplicata_dbDupA

/-- C6 counterexample: the duplicate error is the same value for two
stores whose existing reports have different ids (7 and 8), so the error
cannot carry the id of the existing solicitation as the claim states. -/
theorem criar_solicitacao_duplicata_cex :
    (criar_solicitacao dbDupA 5 2025 1 "d" 0 0 "e").2
      = Except.error ⟨409, "Já existe uma solicitação similar neste local. Considere apoiar a solicitação existente ao invés de criar uma nova."⟩
    ∧ (criar_solicitacao dbDupA 5 2025 1 "d" 0 0 "e").2
      = (criar_solicitacao dbDupB 5 2025 1 "d" 0 0 "e").2 := by
  have hB : verificar_duplicata dbDupB.solicitacoes 0 0 1 50
      = some { solPendente with id := 8 } := by
    refine verificar_duplicata_singleton _ _ _ _ _ rfl (by decide) ?_
    show distanciaHaversine 0 0 0 0 < 50
    rw [distanciaHaversine_self]
    norm_num
  have h1 : (1 : Nat) ∈ dbDupA.categorias := by decide
  have h2 : (1 : Nat) ∈ dbDupB.categorias := by decide
  refine ⟨?_, ?_⟩
  · simp [criar_solicitacao, h1, verificar_duplicata_dbDupA]
  · simp [criar_solicitacao, h1, h2, verificar_duplicata_dbDupA, hB]

/-- C7: every successful creation persists exactly one new solicitation,
with status PENDENTE, and has no other side effect: notifications, audit
records, categories and the clock are unchanged. -/
theorem criar_solicitacao_pendente_sem_efeitos (db : DBState) (uid ano catid : Nat)
    (desc : String) (lat lon : ℝ) (ende : String) (db' : DBState) (sol : Solicitacao)
    (h : criar_solicitacao db uid ano catid desc lat lon ende = (db', Except.ok sol)) :
    sol.status = "PENDENTE"
    ∧ db'.solicitacoes = db.solicitacoes ++ [sol]
    ∧ db'.notificacoes = db.notificacoes
    ∧ db'.atualizacoes = db.atualizacoes
    ∧ db'.categorias = db.categorias
    ∧ db'.clock = db.clock := by
  simp only [criar_solicitacao] at h
  by_cases hc : catid ∈ db.categorias
  · rw [if_pos hc] at h
    cases hdup : verificar_duplicata db.solicitacoes lat lon catid 50 with
    | some s =>
      rw [hdup] at h
      simp [Prod.ext_iff] at h
    | none =>
      rw [hdup] at h
      rw [Prod.ext_iff] at h
      obtain ⟨hdb, hok⟩ := h
      rw [Except.ok.injEq] at hok
      subst hok
      subst hdb
      exact ⟨rfl, rfl, rfl, rfl, rfl, rfl⟩
  · rw [if_neg hc] at h
    simp [Prod.ext_iff] at h

/-- C7 witness: creating over an empty store persists one PENDENTE
solicitation and nothing else. -/
theorem criar_solicitacao_pendente_sem_efeitos_witness :
    solNova.status = "PENDENTE"
    ∧ dbAposCriacao.solicitacoes = dbVazio.solicitacoes ++ [solNova]
    ∧ dbAposCriacao.notificacoes = dbVazio.notificacoes
    ∧ dbAposCriacao.atualizacoes = dbVazio.atualizacoes := by
  have hEq : criar_solicitacao dbVazio 5 2025 1 "d" 0 0 "e"
      = (dbAposCriacao, Except.ok solNova) := rfl
  obtain ⟨h1, h2, h3, h4, _, _⟩ :=
    criar_solicitacao_pendente_sem_efeitos dbVazio 5 2025 1 "d" 0 0 "e" dbAposCriacao
      solNova hEq
  exact ⟨h1, h2, h3, h4⟩

/-! ## Lemmas about the status-update service -/

theorem from_value_of_mem (v : String) (h : v ∈ get_all_values) :
    ∃ S : StatusSolicitacaoEnum, StatusSolicitacaoEnum.from_value v = some S ∧ S.value = v := by
  simp only [get_all_values, List.mem_cons, List.not_mem_nil, or_false] at h
  rcases h with h | h | h | h | h <;> subst h <;> exact ⟨_, rfl, rfl⟩

theorem from_value_none_of_not_mem (v : String) (h : v ∉ get_all_values) :
    StatusSolicitacaoEnum.from_value v = none := by
  simp only [get_all_values, List.mem_cons, List.not_mem_nil, or_false, not_or] at h
  obtain ⟨h1, h2, h3, h4, h5⟩ := h
  simp [StatusSolicitacaoEnum.from_value, h1, h2, h3, h4, h5]

theorem value_of_from_value (v : String) (S : StatusSolicitacaoEnum)
    (h : StatusSolicitacaoEnum.from_value v = some S) : S.value = v := by
  simp only [StatusSolicitacaoEnum.from_value] at h
  split_ifs at h with h1 h2 h3 h4 h5
  · rw [Option.some.injEq] at h; subst h; subst h1; rfl
  · rw [Option.some.injEq] at h; subst h; subst h2; rfl
  · rw [Option.some.injEq] at h; subst h; subst h3; rfl
  · rw [Option.some.injEq] at h; subst h; subst h4; rfl
  · rw [Option.some.injEq] at h; subst h; subst h5; rfl

/-- Closed form of a successful status update. -/
theorem atualizar_spec (db : DBState) (id : Nat) (novo d : String) (sol : Solicitacao)
    (S : StatusSolicitacaoEnum)
    (hfind : obter_por_id db id = some sol)
    (hS : StatusSolicitacaoEnum.from_value novo = some S) :
    atualizar_status_e_notificar db id novo d
      = Except.ok
          ({ solicitacoes := atualizarPrimeiro id S.value db.solicitacoes
             atualizacoes := db.atualizacoes
               ++ [⟨id, none, sol.status, S.value, d, db.clock⟩]
             notificacoes := db.notificacoes
               ++ [⟨db.notificacoes.length + 1, sol.usuario_id, id,
                    "Sua solicitação foi atualizada", conteudoNotificacao sol.status S d,
                    false, db.clock⟩]
             categorias := db.categorias
             clock := db.clock + 1 },
           ⟨sol.id, S.value, S.label, db.notificacoes.length + 1,
            "Sua solicitação foi atualizada", conteudoNotificacao sol.status S d⟩) := by
  simp [atualizar_status_e_notificar, hfind, hS]

theorem atualizar_nao_encontrada (db : DBState) (id : Nat) (novo d : String)
    (h : obter_por_id db id = none) :
    atualizar_status_e_notificar db id novo d
      = Except.error ("Solicitação " ++ natToString id ++ " não encontrada") := by
  simp [atualizar_status_e_notificar, h]

theorem atualizar_status_invalido (db : DBState) (id : Nat) (novo d : String)
    (sol : Solicitacao) (hfind : obter_por_id db id = some sol)
    (h : StatusSolicitacaoEnum.from_value novo = none) :
    atualizar_status_e_notificar db id novo d = Except.error "Status inválido" := by
  simp [atualizar_status_e_notificar, hfind, h]

theorem find?_atualizarPrimeiro (id : Nat) (v : String) (l : List Solicitacao) :
    List.find? (fun s => s.id == id) (atualizarPrimeiro id v l)
      = (List.find? (fun s => s.id == id) l).map fun s => { s with status := v } := by
  induction l with
  | nil => rfl
  | cons s t ih =>
    by_cases h : (s.id == id) = true
    · simp [atualizarPrimeiro, List.find?_cons, h]
    · simp only [atualizarPrimeiro, h, if_false, Bool.false_eq_true]
      simp only [List.find?_cons, h, ih]

theorem statusDe_apos_atualizar (db : DBState) (id : Nat) (v : String) (sol : Solicitacao)
    (hfind : obter_por_id db id = some sol) (rest : List AtualizacaoSolicitacao)
    (notifs : List Notificacao) (cats : List Nat) (c : Nat) :
    statusDe
      { solicitacoes := atualizarPrimeiro id v db.solicitacoes
        atualizacoes := rest, notificacoes := notifs, categorias := cats, clock := c } id
      = some v := by
  have hfind' : List.find? (fun s => s.id == id) db.solicitacoes = some sol := hfind
  simp [statusDe, obter_por_id, find?_atualizarPrimeiro, hfind']

/-! ## Claim theorems: transition validation (C1, C2) -/

/-- C1 (amended): the status-update validation is membership-only: with
the solicitation loaded, every requested status among the five enum
values succeeds, and the requested status is written, regardless of the
current state (the legal-transition table of the claim is not enforced —
there is no `InvalidTransition` outcome); only a request outside the five
values fails, with a `ValueError`. -/
theorem atualizar_status_validacao (db : DBState) (id : Nat) (r d : String)
    (sol : Solicitacao) (hfind : obter_por_id db id = some sol) :
    (r ∈ get_all_values →
      ∃ db' res, atualizar_status_e_notificar db id r d = Except.ok (db', res)
        ∧ statusDe db' id = some r)
    ∧ (r ∉ get_all_values →
        atualizar_status_e_notificar db id r d = Except.error "Status inválido") := by
  constructor
  · intro hr
    obtain ⟨S, hS, hSv⟩ := from_value_of_mem r hr
    refine ⟨_, _, atualizar_spec db id r d sol S hfind hS, ?_⟩
    rw [statusDe_apos_atualizar db id S.value sol hfind, hSv]
  · intro hr
    exact atualizar_status_invalido db id r d sol hfind (from_value_none_of_not_mem r hr)

/-- C1 witness: on a RESOLVIDO solicitation, requesting PENDENTE (a pair
outside the claimed table) succeeds, while the non-enum string "FOO"
fails with the validation error. -/
theorem atualizar_status_validacao_witness :
    (atualizar_status_e_notificar dbC1 1 "PENDENTE" "").isOk = true
    ∧ atualizar_status_e_notificar dbC1 1 "FOO" "" = Except.error "Status inválido" := by
  obtain ⟨db', res, heq, _⟩ :=
    (atualizar_status_validacao dbC1 1 "PENDENTE" "" solResolvida rfl).1 (by decide)
  refine ⟨?_, (atualizar_status_validacao dbC1 1 "FOO" "" solResolvida rfl).2 (by decide)⟩
  rw [heq]
  rfl

/-- C1 counterexample: from the terminal state RESOLVIDO the request
PENDENTE — not in the legal table — succeeds and the status is changed,
instead of failing with `InvalidTransition` and leaving the status. -/
theorem atualizar_status_terminal_cex :
    ((atualizar_status_e_notificar dbC1 1 "PENDENTE" "").toOption.map fun p =>
        statusDe p.1 1)
      = some (some "PENDENTE") := rfl

/-- C2 (amended): a self-transition S → S, for any current status among
the five values, does not fail: it succeeds, rewrites the unchanged
status, and produces exactly one audit record — with
`status_anterior = status_novo = S` — and exactly one notification. -/
theorem atualizar_status_noop (db : DBState) (id : Nat) (d : String) (sol : Solicitacao)
    (hfind : obter_por_id db id = some sol) (hst : sol.status ∈ get_all_values) :
    ∃ db' res, atualizar_status_e_notificar db id sol.status d = Except.ok (db', res)
      ∧ db'.atualizacoes = db.atualizacoes ++ [⟨id, none, sol.status, sol.status, d, db.clock⟩]
      ∧ db'.notificacoes.length = db.notificacoes.length + 1
      ∧ statusDe db' id = some sol.status := by
  obtain ⟨S, hS, hSv⟩ := from_value_of_mem sol.status hst
  refine ⟨_, _, atualizar_spec db id sol.status d sol S hfind hS, ?_, ?_, ?_⟩
  · rw [hSv]
  · simp
  · rw [statusDe_apos_atualizar db id S.value sol hfind, hSv]

/-- C2 witness: a PENDENTE → PENDENTE self-transition on a concrete
store succeeds. -/
theorem atualizar_status_noop_witness :
    (atualizar_status_e_notificar dbC2 1 "PENDENTE" "").isOk = true := by
  obtain ⟨db', res, heq, _⟩ :=
    atualizar_status_noop dbC2 1 "" solPendenteUm rfl (by decide)
  have : atualizar_status_e_notificar dbC2 1 "PENDENTE" ""
      = atualizar_status_e_notificar dbC2 1 solPendenteUm.status "" := rfl
  rw [this, heq]
  rfl

/-- C2 counterexample: the self-transition PENDENTE → PENDENTE succeeds
and produces a status write, one audit record and one notification,
instead of failing with `NoOpTransition` and producing nothing. -/
theorem atualizar_status_noop_cex :
    ((atualizar_status_e_notificar dbC2 1 "PENDENTE" "").toOption.map fun p =>
        (p.1.atualizacoes.length, p.1.notificacoes.length, statusDe p.1 1))
      = some (1, 1, some "PENDENTE") := rfl

/-! ## Lemmas about the audit chain and history ordering -/

theorem cadeiaDe_length (st : String) (l : List String) :
    (cadeiaDe st l).length = l.length := by
  induction l generalizing st with
  | nil => rfl
  | cons r rs ih => simp [cadeiaDe, ih]

theorem inserirDesc_append (a : AtualizacaoSolicitacao) :
    ∀ l, (∀ b ∈ l, a.criado_em < b.criado_em) → inserirDesc a l = l ++ [a] := by
  intro l
  induction l with
  | nil => intro; rfl
  | cons b t ih =>
    intro h
    have hb : a.criado_em < b.criado_em := h b (List.mem_cons_self b t)
    simp only [inserirDesc]
    rw [if_neg (by omega), ih (fun c hc => h c (List.mem_cons_of_mem b hc))]
    rfl

theorem ordenarDesc_of_pairwise :
    ∀ l : List AtualizacaoSolicitacao,
      l.Pairwise (fun a b => a.criado_em < b.criado_em) →
      ordenarPorCriadoEmDesc l = l.reverse := by
  intro l
  induction l with
  | nil => intro; rfl
  | cons a t ih =>
    intro hp
    rw [List.pairwise_cons] at hp
    show inserirDesc a (ordenarPorCriadoEmDesc t) = (a :: t).reverse
    rw [ih hp.2, inserirDesc_append a t.reverse
      (fun b hb => hp.1 b (List.mem_reverse.mp hb)), List.reverse_cons]

/-- Inversion of a successful status update. -/
theorem atualizar_ok_inv (db : DBState) (id : Nat) (novo d : String) (db' : DBState)
    (res : ResultadoAtualizacao)
    (h : atualizar_status_e_notificar db id novo d = Except.ok (db', res)) :
    ∃ sol S, obter_por_id db id = some sol
      ∧ StatusSolicitacaoEnum.from_value novo = some S
      ∧ db'.solicitacoes = atualizarPrimeiro id S.value db.solicitacoes
      ∧ db'.atualizacoes = db.atualizacoes ++ [⟨id, none, sol.status, S.value, d, db.clock⟩]
      ∧ db'.clock = db.clock + 1 := by
  cases hfind : obter_por_id db id with
  | none =>
    rw [atualizar_nao_encontrada db id novo d hfind] at h
    cases h
  | some sol =>
    cases hS : StatusSolicitacaoEnum.from_value novo with
    | none =>
      rw [atualizar_status_invalido db id novo d sol hfind hS] at h
      cases h
    | some S =>
      rw [atualizar_spec db id novo d sol S hfind hS] at h
      rw [Except.ok.injEq, Prod.mk.injEq] at h
      obtain ⟨h1, _⟩ := h
      refine ⟨sol, S, rfl, rfl, ?_, ?_, ?_⟩ <;> rw [← h1]

/-- Effect of a batch of successful updates on the audit records of one
solicitation: the (from, to) pairs recorded, in insertion order, extend
the prior ones by the chain through the requested statuses; timestamps
stay below the clock and the per-solicitation records stay strictly
increasing in time; the final status is the last requested one. -/
theorem aplicarLote_spec :
    ∀ (reqs : List (String × String)) (db : DBState) (id : Nat) (sol : Solicitacao)
      (db1 : DBState),
      obter_por_id db id = some sol →
      aplicarLote db id reqs = Except.ok db1 →
      ((db1.atualizacoes.filter fun a => a.solicitacao_id == id).map parDeStatus
          = (db.atualizacoes.filter fun a => a.solicitacao_id == id).map parDeStatus
            ++ cadeiaDe sol.status (reqs.map Prod.fst))
      ∧ ((∀ a ∈ db.atualizacoes, a.criado_em < db.clock) →
          ((∀ a ∈ db1.atualizacoes, a.criado_em < db1.clock)
            ∧ ((db.atualizacoes.filter fun a => a.solicitacao_id == id).Pairwise
                  (fun a b => a.criado_em < b.criado_em) →
                (db1.atualizacoes.filter fun a => a.solicitacao_id == id).Pairwise
                  (fun a b => a.criado_em < b.criado_em))))
      ∧ statusDe db1 id = some ((reqs.map Prod.fst).getLastD sol.status) := by
  intro reqs
  induction reqs with
  | nil =>
    intro db id sol db1 hfind hok
    simp only [aplicarLote] at hok
    rw [Except.ok.injEq] at hok
    subst hok
    refine ⟨by simp [cadeiaDe], fun hc => ⟨hc, fun hp => hp⟩, ?_⟩
    simp [statusDe, hfind]
  | cons req resto ih =>
    intro db id sol db1 hfind hok
    obtain ⟨st, d⟩ := req
    simp only [aplicarLote] at hok
    cases hstep : atualizar_status_e_notificar db id st d with
    | error e =>
      rw [hstep] at hok
      cases hok
    | ok p =>
      obtain ⟨db', res⟩ := p
      rw [hstep] at hok
      obtain ⟨sol2, S, hfind2, hS, hsols, hatu, hclk⟩ :=
        atualizar_ok_inv db id st d db' res hstep
      rw [hfind, Option.some.injEq] at hfind2
      subst hfind2
      have hfindl : List.find? (fun s => s.id == id) db.solicitacoes = some sol := hfind
      have hfind' : obter_por_id db' id = some { sol with status := S.value } := by
        rw [obter_por_id, hsols, find?_atualizarPrimeiro, hfindl]
        rfl
      have hih := ih db' id { sol with status := S.value } db1 hfind' hok
      have hSv : S.value = st := value_of_from_value st S hS
      obtain ⟨hchain, hinv, hstatus⟩ := hih
      refine ⟨?_, ?_, ?_⟩
      · rw [hchain, hatu]
        simp only [List.filter_append, List.map_append, List.append_assoc]
        congr 1
        have hrec : (({ solicitacao_id := id, administrador_id := none,
                        status_anterior := sol.status, status_novo := S.value,
                        descricao := d,
                        criado_em := db.clock } : AtualizacaoSolicitacao).solicitacao_id == id)
            = true := by simp
        simp only [List.filter_cons, hrec, if_true, List.filter_nil, List.map_cons,
          List.map_nil, cadeiaDe, parDeStatus, hSv]
        rfl
      · intro hc
        have hc' : ∀ a ∈ db'.atualizacoes, a.criado_em < db'.clock := by
          intro a ha
          rw [hatu] at ha
          rw [hclk]
          rcases List.mem_append.mp ha with ha | ha
          · have := hc a ha
            omega
          · rcases List.mem_singleton.mp ha with rfl
            show db.clock < db.clock + 1
            omega
        obtain ⟨hc1, hpw⟩ := hinv hc'
        refine ⟨hc1, fun hp => hpw ?_⟩
        rw [hatu, List.filter_append]
        rw [List.pairwise_append]
        refine ⟨hp, ?_, ?_⟩
        · simp
        · intro a ha b hb
          have hamem := List.mem_of_mem_filter ha
          have hbmem := List.mem_of_mem_filter hb
          have hbv : b.criado_em = db.clock := by
            rcases List.mem_filter.mp hb with ⟨hb1, _⟩
            rcases List.mem_singleton.mp hb1 with rfl
            rfl
          have := hc a hamem
          omega
      · rw [hstatus]
        show some ((resto.map Prod.fst).getLastD S.value) = _
        rw [hSv, List.map_cons, List.getLastD_cons]

/-! ## Claim theorem: audit chain (C8) -/

/-- C8: starting from a solicitation in state PENDENTE with no prior
history (timestamps of other records below the clock), after N successful
status updates the history query returns exactly N records, most-recent
first: reversed to chronological order, their (fromStatus, toStatus)
pairs are exactly the chain from PENDENTE through the requested statuses
— each record's fromStatus is the status loaded immediately before that
update and its toStatus the status written by it — and the solicitation's
final status is the last requested status. -/
theorem historico_cadeia (reqs : List (String × String)) (db0 : DBState) (id : Nat)
    (sol0 : Solicitacao) (db1 : DBState)
    (hfind : obter_por_id db0 id = some sol0)
    (hpend : sol0.status = "PENDENTE")
    (hhist : db0.atualizacoes.filter (fun a => a.solicitacao_id == id) = [])
    (hclock : ∀ a ∈ db0.atualizacoes, a.criado_em < db0.clock)
    (hok : aplicarLote db0 id reqs = Except.ok db1) :
    (obter_historico db1 id).length = reqs.length
    ∧ (obter_historico db1 id).reverse.map parDeStatus
        = cadeiaDe "PENDENTE" (reqs.map Prod.fst)
    ∧ statusDe db1 id = some ((reqs.map Prod.fst).getLastD "PENDENTE") := by
  obtain ⟨hchain, hinv, hstatus⟩ := aplicarLote_spec reqs db0 id sol0 db1 hfind hok
  rw [hhist] at hchain
  simp only [List.map_nil, List.nil_append] at hchain
  rw [hpend] at hchain
  obtain ⟨hclk1, hpw⟩ := hinv hclock
  have hpair : (db1.atualizacoes.filter fun a => a.solicitacao_id == id).Pairwise
      (fun a b => a.criado_em < b.criado_em) := by
    apply hpw
    rw [hhist]
    exact List.Pairwise.nil
  have hsort : obter_historico db1 id
      = (db1.atualizacoes.filter fun a => a.solicitacao_id == id).reverse := by
    rw [obter_historico]
    exact ordenarDesc_of_pairwise _ hpair
  refine ⟨?_, ?_, ?_⟩
  · rw [hsort, List.length_reverse]
    have hlen := congrArg List.length hchain
    rw [List.length_map, cadeiaDe_length, List.length_map] at hlen
    exact hlen
  · rw [hsort, List.reverse_reverse]
    exact hchain
  · rw [hstatus, hpend]

/-- C8 witness: one successful update PENDENTE → EM_ANALISE on a concrete
store produces a one-record history whose chain is
(PENDENTE, EM_ANALISE) and the final status EM_ANALISE. -/
theorem historico_cadeia_witness :
    (obter_historico dbAposLote 1).length = 1
    ∧ (obter_historico dbAposLote 1).reverse.map parDeStatus
        = cadeiaDe "PENDENTE" ["EM_ANALISE"]
    ∧ statusDe dbAposLote 1 = some "EM_ANALISE" := by
  obtain ⟨h1, h2, h3⟩ := historico_cadeia [("EM_ANALISE", "")] dbC2 1 solPendenteUm
    dbAposLote rfl rfl rfl (by simp [dbC2, dbC1]) rfl
  exact ⟨h1, h2, h3⟩

end Connect
